import Mathlib

/-!
Verification of the request-execution core in `src/anthropic/_base_client.py`.

Modelling conventions (shallow embedding):
* Python dicts (headers, query params) are modelled as lookup functions
  `String → Option _`; insertion order is not observable in any property below.
  httpx's case-insensitive header lookup is not modelled: every property uses one
  canonical spelling per header name.
* Floats in `_calculate_retry_timeout` are modelled as rationals; `random()` is an
  explicit argument `rand` with `0 ≤ rand < 1`.
* Nondeterministic transport behaviour is an oracle `transport : Nat → SendOutcome`
  giving the outcome of each wire attempt, and `uuid4()` is an oracle
  `fresh : Nat → String`.
* Exceptions are explicit result values (`Except`, error inductives).
* `FinalRequestOptions.get_max_retries` is defined in `_models.py`, which is not part
  of the sources; it is modelled from the spec (see its doc comment).
-/

namespace BaseClientModel

/-! String helpers. Python's `.lower()`, `.strip()`, `.split(";")` and `int(...)`
are implemented by structural recursion over the character list so that all
definitions evaluate inside the kernel. -/

/-- Python `str.lower()` (ASCII suffices for HTTP methods). -/
def pyLower (s : String) : String :=
  String.mk (s.data.map Char.toLower)

/-- The whitespace `str.strip()` removes. -/
def pyIsSpace (c : Char) : Bool :=
  c = ' ' ∨ c = '\t' ∨ c = '\n' ∨ c = '\r' ∨ c = '\x0b' ∨ c = '\x0c'

/-- Python `str.strip()`. -/
def pyStrip (s : String) : String :=
  String.mk (((s.data.dropWhile (fun c => pyIsSpace c)).reverse.dropWhile
    (fun c => pyIsSpace c)).reverse)

/-- Accumulate a decimal value, failing on any non-digit. -/
def digitsToNatAux : List Char → Nat → Option Nat
  | [], acc => some acc
  | c :: cs, acc =>
    if c.isDigit then digitsToNatAux cs (acc * 10 + (c.toNat - 48)) else none

/-- Python `int(str)` on the stripped character list: an optional sign followed by
at least one decimal digit. (Underscore grouping and non-ASCII digits are not
modelled.) -/
def pyIntOfChars : List Char → Option Int
  | [] => none
  | '-' :: cs =>
    match cs with
    | [] => none
    | _ => (digitsToNatAux cs 0).map (fun n => -(n : Int))
  | '+' :: cs =>
    match cs with
    | [] => none
    | _ => (digitsToNatAux cs 0).map (fun n => (n : Int))
  | cs => (digitsToNatAux cs 0).map (fun n => (n : Int))

/-- Python `int(s)` for a header value. -/
def pyInt (s : String) : Option Int :=
  pyIntOfChars (pyStrip s).data

/-- Python `str.split(sep)` for a single-character separator. -/
def splitOnCharAux (sep : Char) : List Char → List Char → List String
  | [], acc => [String.mk acc.reverse]
  | c :: cs, acc =>
    if c = sep then String.mk acc.reverse :: splitOnCharAux sep cs []
    else splitOnCharAux sep cs (c :: acc)

/-- JSON values, the result of `response.json()`. -/
inductive Json where
  | null
  | bool (b : Bool)
  | str (s : String)
  | num (n : Int)
  | arr (elems : List Json)
  | obj (fields : List (String × Json))

/-- A header/query value: either a real value or the `Omit` sentinel from `_types`. -/
inductive HVal where
  | omit
  | val (s : String)
deriving DecidableEq

/-- A Python `Mapping[str, str | Omit]`, modelled as a lookup function. -/
abbrev Mapp := String → Option HVal

/-- A string-valued lookup mapping (e.g. the view `httpx.Headers` gives). -/
abbrev SMap := String → Option String

/-- Python dict merge `{**obj1, **obj2}`: the second mapping wins on key collision. -/
def dictMerge {α : Type} (obj1 obj2 : String → Option α) : String → Option α :=
  fun k =>
    match obj2 k with
    | some v => some v
    | none => obj1 k

/-- `_merge_mappings` (lines 1485-1494): merge two mappings, the second taking
precedence on duplicate keys, then drop any entry whose value is `Omit`. -/
def mergeMappings (obj1 obj2 : Mapp) : Mapp :=
  fun k =>
    match dictMerge obj1 obj2 k with
    | some HVal.omit => none
    | v => v

/-- `httpx.Headers(headers_dict)`: the string-valued view of an Omit-free mapping. -/
def toHeaders (m : Mapp) : SMap :=
  fun k =>
    match m k with
    | some (HVal.val s) => some s
    | _ => none

/-- `httpx.URL`, reduced to its address and its query parameters. -/
structure Url where
  address : String
  params : Mapp

/-- `FinalRequestOptions` (from `_models.py`), restricted to the fields the verified
properties exercise. `maxRetries = none` models `NOT_GIVEN`. -/
structure FinalRequestOptions where
  method : String
  url : Url
  params : Mapp
  headers : Mapp
  maxRetries : Option Nat
  idempotencyKey : Option String

/-- Modelled from the spec: `FinalRequestOptions.get_max_retries` lives in
`_models.py`, which is not among the sources. The spec (§3 RetryState) states the
budget "starts at `min(per-call override, client-default)`"; absent an override the
client default is used. -/
def FinalRequestOptions.getMaxRetries (opts : FinalRequestOptions) (clientMaxRetries : Nat) : Nat :=
  match opts.maxRetries with
  | some n => min n clientMaxRetries
  | none => clientMaxRetries

/-- `BaseClient` configuration together with its external collaborators (auth
headers, platform headers, pydantic strict validation, default stream class)
modelled as read-only fields, per the immutable-configuration model of the spec. -/
structure Client where
  version : String
  maxRetries : Nat
  idempotencyHeader : Option String
  customHeaders : Mapp
  customQuery : Mapp
  strictResponseValidation : Bool
  authHeaders : Mapp
  platformHeaders : Mapp
  className : String
  defaultStreamCls : Option Unit
  validateOk : Json → Bool

/-- `user_agent` property (lines 567-569). -/
def Client.userAgent (c : Client) : String :=
  c.className ++ "/Python " ++ c.version

/-- `default_headers` property (lines 550-558): Content-Type and User-Agent, then
platform headers, then auth headers, then custom headers, later entries winning. -/
def Client.defaultHeadersM (c : Client) : Mapp :=
  dictMerge
    (dictMerge
      (dictMerge
        (fun k =>
          if k = "Content-Type" then some (HVal.val "application/json")
          else if k = "User-Agent" then some (HVal.val c.userAgent)
          else none)
        c.platformHeaders)
      c.authHeaders)
    c.customHeaders

/-- `_idempotency_key` (lines 643-644); the `uuid4()` draw is the argument. -/
def Client.idempotencyKeyGen (_c : Client) (fresh : String) : String :=
  "stainless-python-retry-" ++ fresh

/-- The key `_build_headers` ends up using when the idempotency branch fires
(lines 378-381): reuse a cached truthy key, otherwise generate. Python truthiness
makes an empty-string key regenerate. -/
def keyUsed (c : Client) (opts : FinalRequestOptions) (fresh : String) : String :=
  match opts.idempotencyKey with
  | some k => if k = "" then c.idempotencyKeyGen fresh else k
  | none => c.idempotencyKeyGen fresh

/-- `_build_headers` (lines 369-383). Merges default and per-call headers, then, for
a truthy configured idempotency header on a non-GET request when that header is
absent, caches a key on the options and sets the header. `_validate_headers` is a
no-op in `BaseClient` (lines 560-565). Returns the headers and the (possibly
mutated) options. -/
def buildHeaders (c : Client) (opts : FinalRequestOptions) (fresh : String) :
    SMap × FinalRequestOptions :=
  let headers := toHeaders (mergeMappings c.defaultHeadersM opts.headers)
  match c.idempotencyHeader with
  | none => (headers, opts)
  | some ih =>
    if ih ≠ "" ∧ pyLower opts.method ≠ "get" ∧ headers ih = none then
      let key := keyUsed c opts fresh
      (fun k => if k = ih then some key else headers k,
        { opts with idempotencyKey := some key })
    else (headers, opts)

/-- A wire request, reduced to the observable pieces the properties need. -/
structure Request where
  method : String
  url : Url
  headers : SMap
  params : Mapp

/-- `_build_request` (lines 394-446), restricted to header construction (including
the removal of an exactly-"multipart/form-data" Content-Type, lines 418-419) and
query merging (line 411). JSON-body merging and multipart file serialization
(lines 402-409, 420-428, 448-460) carry no verified property and are not modelled.
Returns the request and the (possibly mutated) options. -/
def buildRequest (c : Client) (opts : FinalRequestOptions) (fresh : String) :
    Request × FinalRequestOptions :=
  let bh := buildHeaders c opts fresh
  let headers := bh.1
  let opts' := bh.2
  let headers' :=
    if headers "Content-Type" = some "multipart/form-data" then
      fun k => if k = "Content-Type" then none else headers k
    else headers
  ({ method := opts'.method, url := opts'.url, headers := headers',
     params := mergeMappings c.customQuery opts'.params }, opts')

/-- `httpx.Response`, reduced to status, headers, body text and parsed JSON
(`json = none` models a `response.json()` parse failure). -/
structure Response where
  status : Nat
  headers : SMap
  body : String
  json : Option Json

/-- The `cast_to` shapes `_process_response` (lines 462-515) distinguishes. -/
inductive CastTo where
  | noneType
  | strType
  | httpxResponse
  | httpxResponseSub
  | unknownResponse
  | modelBuilder
  | model
  | otherType
deriving DecidableEq

/-- Exceptions that can escape `_process_response` / `_process_response_data`. -/
inductive ProcError where
  | validationError
  | valueErrorContentType (ct : String)
  | valueErrorResponseSubclass
  | runtimeErrorInvalidCastTo
  | attributeErrorNoContentType
  | jsonDecodeError
deriving DecidableEq

/-- Decoded results `_process_response` can produce. -/
inductive Decoded where
  | null
  | text (s : String)
  | rawResponse (status : Nat)
  | rawData (j : Json)
  | built (j : Json)
  | validated (j : Json)
  | constructed (j : Json)
  | streamed

/-- `_process_response_data` (lines 517-536): JSON null short-circuits; Unknown
passes through; a ModelBuilderProtocol type delegates to its builder; otherwise
strict mode validates (pydantic failure = `validationError`), else permissive
construction never fails. -/
def processResponseData (c : Client) (castTo : CastTo) (data : Json) :
    Except ProcError Decoded :=
  match data with
  | Json.null => Except.ok Decoded.null
  | _ =>
    match castTo with
    | CastTo.unknownResponse => Except.ok (Decoded.rawData data)
    | CastTo.modelBuilder => Except.ok (Decoded.built data)
    | _ =>
      if c.strictResponseValidation then
        if c.validateOk data then Except.ok (Decoded.validated data)
        else Except.error ProcError.validationError
      else Except.ok (Decoded.constructed data)

/-- The part of the Content-Type before the first ";" (line 508:
`content_type, *_ = response.headers.get("content-type").split(";")`). -/
def contentTypeMain (s : String) : String :=
  (splitOnCharAux ';' s.data []).headD ""

/-- `_process_response` (lines 462-515): NoneType → null; str → body text; an
httpx.Response subclass is a ValueError; httpx.Response itself returns the raw
response; a shape that is none of Unknown/list/dict/Union/BaseModel is a
RuntimeError; otherwise the Content-Type main part must be exactly
`application/json` (a missing header would crash `.split` with AttributeError),
then the body is parsed and handed to `_process_response_data`. -/
def processResponse (c : Client) (castTo : CastTo) (resp : Response) :
    Except ProcError Decoded :=
  match castTo with
  | CastTo.noneType => Except.ok Decoded.null
  | CastTo.strType => Except.ok (Decoded.text resp.body)
  | CastTo.httpxResponseSub => Except.error ProcError.valueErrorResponseSubclass
  | CastTo.httpxResponse => Except.ok (Decoded.rawResponse resp.status)
  | CastTo.otherType => Except.error ProcError.runtimeErrorInvalidCastTo
  | _ =>
    match resp.headers "content-type" with
    | none => Except.error ProcError.attributeErrorNoContentType
    | some ctRaw =>
      if contentTypeMain ctRaw ≠ "application/json" then
        Except.error (ProcError.valueErrorContentType (contentTypeMain ctRaw))
      else
        match resp.json with
        | none => Except.error ProcError.jsonDecodeError
        | some data => processResponseData c castTo data

/-- `_should_retry` (lines 619-641): an explicit `x-should-retry` header valued
"true"/"false" is obeyed; else retry on 409, 429 and every status ≥ 500. -/
def shouldRetry (resp : Response) : Bool :=
  let shouldRetryHeader := resp.headers "x-should-retry"
  if shouldRetryHeader = some "true" then true
  else if shouldRetryHeader = some "false" then false
  else if resp.status = 409 then true
  else if resp.status = 429 then true
  else if 500 ≤ resp.status then true
  else false

/-- The error classes `_make_status_error` (lines 336-360) produces. -/
inductive StatusClass where
  | badRequest
  | authentication
  | permissionDenied
  | notFound
  | conflict
  | unprocessableEntity
  | rateLimit
  | internalServer
  | generic
deriving DecidableEq

/-- `_make_status_error` status table (lines 336-360). -/
def makeStatusClass (status : Nat) : StatusClass :=
  if status = 400 then StatusClass.badRequest
  else if status = 401 then StatusClass.authentication
  else if status = 403 then StatusClass.permissionDenied
  else if status = 404 then StatusClass.notFound
  else if status = 409 then StatusClass.conflict
  else if status = 422 then StatusClass.unprocessableEntity
  else if status = 429 then StatusClass.rateLimit
  else if 500 ≤ status then StatusClass.internalServer
  else StatusClass.generic

/-- The `retry_after` value computed at lines 593-601:
`int(response_headers.get("retry-after"))` with any exception (absent headers,
missing header, parse failure) yielding `-1`. -/
def retryAfterOf (responseHeaders : Option SMap) : Int :=
  match responseHeaders with
  | none => -1
  | some hs =>
    match hs "retry-after" with
    | none => -1
    | some s => (pyInt s).getD (-1)

/-- `_calculate_retry_timeout` (lines 586-617) over ℚ, with the `random()` draw as
`rand` (`0 ≤ rand < 1`). A retry-after in (0, 60] is used verbatim; otherwise
exponential backoff `min(0.5 * (nb_retries - 1)^2, 2.0)` plus jitter `rand - 0.5`,
floored at 0. -/
def calculateRetryTimeout (c : Client) (remainingRetries : Nat)
    (opts : FinalRequestOptions) (responseHeaders : Option SMap) (rand : ℚ) : ℚ :=
  let maxRetries := opts.getMaxRetries c.maxRetries
  let retryAfter := retryAfterOf responseHeaders
  if 0 < retryAfter ∧ retryAfter ≤ 60 then (retryAfter : ℚ)
  else
    let initialRetryDelay : ℚ := 1 / 2
    let maxRetryDelay : ℚ := 2
    let nbRetries : Int := (maxRetries : Int) - (remainingRetries : Int)
    let sleepSeconds : ℚ := min (initialRetryDelay * (((nbRetries - 1) ^ 2 : Int) : ℚ)) maxRetryDelay
    let jitter : ℚ := rand - 1 / 2
    let timeout := sleepSeconds + jitter
    if 0 ≤ timeout then timeout else 0

/-- `_remaining_retries` (lines 362-367): an explicit in-flight count wins,
otherwise `options.get_max_retries(self.max_retries)`. -/
def remainingRetriesFn (c : Client) (remainingRetries : Option Nat)
    (opts : FinalRequestOptions) : Nat :=
  match remainingRetries with
  | some r => r
  | none => opts.getMaxRetries c.maxRetries

/-- Outcome of one `self._client.send(...)` call, indexed by wire attempt. -/
inductive SendOutcome where
  | response (resp : Response)
  | connectTimeout
  | readTimeout
  | otherTimeout
  | connectionError

/-- Errors surfaced by `_request`. `uncaught e` is an exception from
`_process_response` other than `pydantic.ValidationError`, which propagates
unwrapped (only ValidationError is caught at lines 804-807 / 1169-1172). -/
inductive ReqError where
  | apiStatusError (cls : StatusClass) (status : Nat)
  | apiTimeoutError
  | apiConnectionError
  | apiResponseValidationError
  | missingStreamClassError
  | readTimeoutReRaised
  | uncaught (e : ProcError)
deriving DecidableEq

/-- Lines 804-809 / 1169-1174: wrap `pydantic.ValidationError` from
`_process_response` as `APIResponseValidationError`; every other exception
propagates unchanged. -/
def wrapProcess (c : Client) (castTo : CastTo) (resp : Response) :
    Except ReqError Decoded :=
  match processResponse c castTo resp with
  | Except.ok v => Except.ok v
  | Except.error ProcError.validationError => Except.error ReqError.apiResponseValidationError
  | Except.error e => Except.error (ReqError.uncaught e)

/-- Lines 798-802 / 1163-1167: on a streamed success, pick
`stream_cls or self._default_stream_cls`; absence of both is
`MissingStreamClassError`. -/
def streamResult (c : Client) (streamCls : Option Unit) : Except ReqError Decoded :=
  match streamCls with
  | some _ => Except.ok Decoded.streamed
  | none =>
    match c.defaultStreamCls with
    | some _ => Except.ok Decoded.streamed
    | none => Except.error ReqError.missingStreamClassError

/-- The fate of a delivered response that is not retried (lines 773-809):
`raise_for_status()` throws on a status ≥ 400 (which here is terminal, i.e. the
retry guard already declined), producing the classified status error; otherwise
the streaming wrapper or the decode path runs. -/
def respondResult (c : Client) (castTo : CastTo) (stream : Bool) (streamCls : Option Unit)
    (resp : Response) : Except ReqError Decoded :=
  if 400 ≤ resp.status then
    Except.error (ReqError.apiStatusError (makeStatusClass resp.status) resp.status)
  else if stream then streamResult c streamCls
  else wrapProcess c castTo resp

/-- `SyncAPIClient._request` together with `_retry_request` (lines 759-834),
unrolled on the retry budget. Each attempt rebuilds the wire request from the
(possibly mutated) options; an HTTPStatusError retries iff budget remains and
`_should_retry` agrees (`retries > 0 and self._should_retry(...)`); any
`httpx.TimeoutException` — including ReadTimeout, which the sync variant does not
single out — retries while budget remains, else APITimeoutError; any other
exception retries while budget remains, else APIConnectionError. The retry sleep
(lines 822-826) has no observable effect here; `_calculate_retry_timeout` is
verified separately. Returns the result and the list of wire requests sent. -/
def syncRequest (c : Client) (castTo : CastTo) (transport : Nat → SendOutcome)
    (fresh : Nat → String) (stream : Bool) (streamCls : Option Unit) :
    Nat → FinalRequestOptions → Nat → Except ReqError Decoded × List Request
  | attempt, opts, 0 =>
    let br := buildRequest c opts (fresh attempt)
    let req := br.1
    match transport attempt with
    | SendOutcome.response resp => (respondResult c castTo stream streamCls resp, [req])
    | SendOutcome.connectTimeout => (Except.error ReqError.apiTimeoutError, [req])
    | SendOutcome.readTimeout => (Except.error ReqError.apiTimeoutError, [req])
    | SendOutcome.otherTimeout => (Except.error ReqError.apiTimeoutError, [req])
    | SendOutcome.connectionError => (Except.error ReqError.apiConnectionError, [req])
  | attempt, opts, Nat.succ r =>
    let br := buildRequest c opts (fresh attempt)
    let req := br.1
    let opts' := br.2
    match transport attempt with
    | SendOutcome.response resp =>
      if 400 ≤ resp.status ∧ shouldRetry resp then
        let rest := syncRequest c castTo transport fresh stream streamCls (attempt + 1) opts' r
        (rest.1, req :: rest.2)
      else (respondResult c castTo stream streamCls resp, [req])
    | SendOutcome.connectTimeout =>
      let rest := syncRequest c castTo transport fresh stream streamCls (attempt + 1) opts' r
      (rest.1, req :: rest.2)
    | SendOutcome.readTimeout =>
      let rest := syncRequest c castTo transport fresh stream streamCls (attempt + 1) opts' r
      (rest.1, req :: rest.2)
    | SendOutcome.otherTimeout =>
      let rest := syncRequest c castTo transport fresh stream streamCls (attempt + 1) opts' r
      (rest.1, req :: rest.2)
    | SendOutcome.connectionError =>
      let rest := syncRequest c castTo transport fresh stream streamCls (attempt + 1) opts' r
      (rest.1, req :: rest.2)

/-- `AsyncAPIClient._request` together with `_retry_request` (lines 1114-1197):
identical to the sync variant except the exception ladder handles ConnectTimeout,
then explicitly re-raises `httpx.ReadTimeout` (lines 1148-1153) before the generic
TimeoutException handler, so a read timeout is never retried there. -/
def asyncRequest (c : Client) (castTo : CastTo) (transport : Nat → SendOutcome)
    (fresh : Nat → String) (stream : Bool) (streamCls : Option Unit) :
    Nat → FinalRequestOptions → Nat → Except ReqError Decoded × List Request
  | attempt, opts, 0 =>
    let br := buildRequest c opts (fresh attempt)
    let req := br.1
    match transport attempt with
    | SendOutcome.response resp => (respondResult c castTo stream streamCls resp, [req])
    | SendOutcome.connectTimeout => (Except.error ReqError.apiTimeoutError, [req])
    | SendOutcome.readTimeout => (Except.error ReqError.readTimeoutReRaised, [req])
    | SendOutcome.otherTimeout => (Except.error ReqError.apiTimeoutError, [req])
    | SendOutcome.connectionError => (Except.error ReqError.apiConnectionError, [req])
  | attempt, opts, Nat.succ r =>
    let br := buildRequest c opts (fresh attempt)
    let req := br.1
    let opts' := br.2
    match transport attempt with
    | SendOutcome.response resp =>
      if 400 ≤ resp.status ∧ shouldRetry resp then
        let rest := asyncRequest c castTo transport fresh stream streamCls (attempt + 1) opts' r
        (rest.1, req :: rest.2)
      else (respondResult c castTo stream streamCls resp, [req])
    | SendOutcome.connectTimeout =>
      let rest := asyncRequest c castTo transport fresh stream streamCls (attempt + 1) opts' r
      (rest.1, req :: rest.2)
    | SendOutcome.readTimeout =>
      (Except.error ReqError.readTimeoutReRaised, [req])
    | SendOutcome.otherTimeout =>
      let rest := asyncRequest c castTo transport fresh stream streamCls (attempt + 1) opts' r
      (rest.1, req :: rest.2)
    | SendOutcome.connectionError =>
      let rest := asyncRequest c castTo transport fresh stream streamCls (attempt + 1) opts' r
      (rest.1, req :: rest.2)

/-- `SyncAPIClient.request` entry (lines 742-757): compute the initial budget via
`_remaining_retries` and run the retry loop from wire attempt 0. -/
def syncRequestTop (c : Client) (castTo : CastTo) (opts : FinalRequestOptions)
    (remainingRetries : Option Nat) (transport : Nat → SendOutcome)
    (fresh : Nat → String) (stream : Bool) (streamCls : Option Unit) :
    Except ReqError Decoded × List Request :=
  syncRequest c castTo transport fresh stream streamCls 0 opts
    (remainingRetriesFn c remainingRetries opts)

/-- `AsyncAPIClient.request` entry (lines 1097-1112). -/
def asyncRequestTop (c : Client) (castTo : CastTo) (opts : FinalRequestOptions)
    (remainingRetries : Option Nat) (transport : Nat → SendOutcome)
    (fresh : Nat → String) (stream : Bool) (streamCls : Option Unit) :
    Except ReqError Decoded × List Request :=
  asyncRequest c castTo transport fresh stream streamCls 0 opts
    (remainingRetriesFn c remainingRetries opts)

/-- `PageInfo` (lines 100-132): a next-page URL and/or replacement params, with
`NOT_GIVEN` modelled as `none`. The class invariant (exactly one populated) is not
enforced by the constructor, matching the code. -/
structure PageInfo where
  url : Option Url
  params : Option Mapp

/-- A concrete page. `_get_page_items()` and `next_page_info()` are per-endpoint
collaborator hooks (lines 145-149), modelled as data; `options` is the private
`_options` bound by `_set_private_attributes`. -/
structure Page (α : Type) where
  items : List α
  nextInfo : Option PageInfo
  options : FinalRequestOptions

/-- `BasePage.has_next_page` (lines 139-143): an empty item list is final;
otherwise there is a next page iff `next_page_info()` returned something. -/
def hasNextPage {α : Type} (p : Page α) : Bool :=
  if p.items.isEmpty then false
  else p.nextInfo.isSome

/-- `BasePage._params_from_url` (lines 151-153):
`httpx.QueryParams(self._options.params).merge(url.params)` — the current options'
params updated by the url's own params, the url side winning per key. -/
def paramsFromUrl {α : Type} (p : Page α) (u : Url) : Mapp :=
  dictMerge p.options.params u.params

/-- `BasePage._info_to_options` (lines 155-169): a params-carrying PageInfo merges
its params over the current query (plain dict merge, line 159); else a
url-carrying PageInfo sets the options' params to `_params_from_url` and the url
to `info.url.copy_with(params=...)`; neither raises
`ValueError("Unexpected PageInfo state")`. -/
def infoToOptions {α : Type} (p : Page α) (info : PageInfo) :
    Except String FinalRequestOptions :=
  match info.params with
  | some ps => Except.ok { p.options with params := dictMerge p.options.params ps }
  | none =>
    match info.url with
    | some u =>
      let params := paramsFromUrl p u
      let url : Url := { u with params := params }
      Except.ok { p.options with params := params, url := url }
    | none => Except.error "Unexpected PageInfo state"

/-- Result of `get_next_page`: `requestIssued opts` stands for the follow-up call
`self._client._request_api_list(self._model, page=..., options=opts)`; the error
cases issue no request. -/
inductive NextPageResult where
  | runtimeError (msg : String)
  | valueErrorPageInfo (msg : String)
  | requestIssued (opts : FinalRequestOptions)

/-- `BaseSyncPage.get_next_page` (lines 207-215): a falsy `next_page_info()`
(i.e. `None`) raises RuntimeError before any request is issued. -/
def getNextPage {α : Type} (p : Page α) : NextPageResult :=
  match p.nextInfo with
  | none =>
    NextPageResult.runtimeError
      "No next page expected; please check `.has_next_page()` before calling `.get_next_page()`."
  | some info =>
    match infoToOptions p info with
    | Except.error msg => NextPageResult.valueErrorPageInfo msg
    | Except.ok opts => NextPageResult.requestIssued opts

/-- `BaseAsyncPage.get_next_page` (lines 280-288): identical logic; the follow-up
request runs when the awaited `_request_api_list` coroutine resolves. -/
def asyncGetNextPage {α : Type} (p : Page α) : NextPageResult :=
  match p.nextInfo with
  | none =>
    NextPageResult.runtimeError
      "No next page expected; please check `.has_next_page()` before calling `.get_next_page()`."
  | some info =>
    match infoToOptions p info with
    | Except.error msg => NextPageResult.valueErrorPageInfo msg
    | Except.ok opts => NextPageResult.requestIssued opts

/-! Concrete inputs used by the counterexamples and witnesses. -/

/-- An empty mapping. -/
def emptyMapp : Mapp := fun _ => none

/-- An empty string-valued mapping. -/
def emptySMap : SMap := fun _ => none

/-- A minimal client: default budget 2, no idempotency header. -/
def exClient : Client :=
  { version := "0.1.0"
    maxRetries := 2
    idempotencyHeader := none
    customHeaders := emptyMapp
    customQuery := emptyMapp
    strictResponseValidation := false
    authHeaders := emptyMapp
    platformHeaders := emptyMapp
    className := "SyncAPIClient"
    defaultStreamCls := none
    validateOk := fun _ => true }

/-- The same client with default budget 3. -/
def exClient3 : Client := { exClient with maxRetries := 3 }

/-- The same client with an idempotency header configured. -/
def exClientIdem : Client := { exClient with idempotencyHeader := some "Idempotency-Key" }

/-- A base URL with no query. -/
def exUrl0 : Url := { address := "https://api.example.com/v1/items", params := emptyMapp }

/-- Plain GET options with no overrides. -/
def exOpts : FinalRequestOptions :=
  { method := "get"
    url := exUrl0
    params := emptyMapp
    headers := emptyMapp
    maxRetries := none
    idempotencyKey := none }

/-- Options with a per-call max-retries override of 5. -/
def exOptsM5 : FinalRequestOptions := { exOpts with maxRetries := some 5 }

/-- Options with a per-call max-retries override of 3. -/
def exOptsM3 : FinalRequestOptions := { exOpts with maxRetries := some 3 }

/-- POST options (idempotency-eligible). -/
def exOptsPost : FinalRequestOptions := { exOpts with method := "post" }

/-- A 200 response with a JSON object body. -/
def okJsonResponse : Response :=
  { status := 200
    headers := fun k => if k = "content-type" then some "application/json" else none
    body := "{}"
    json := some (Json.obj []) }

/-- A 200 response whose Content-Type is text/plain. -/
def textPlainResponse : Response :=
  { status := 200
    headers := fun k => if k = "content-type" then some "text/plain" else none
    body := "hello"
    json := none }

/-- Transport oracle: read timeout on the first attempt, then success. -/
def readTimeoutThenOk : Nat → SendOutcome :=
  fun i => if i = 0 then SendOutcome.readTimeout else SendOutcome.response okJsonResponse

/-- Transport oracle: every attempt yields the text/plain success response. -/
def alwaysTextPlain : Nat → SendOutcome :=
  fun _ => SendOutcome.response textPlainResponse

/-- A deterministic stand-in for the per-attempt uuid draws. -/
def freshKeys : Nat → String := fun i => toString i

/-- Headers carrying `retry-after: 30`. -/
def hdrRetryAfter30 : SMap := fun k => if k = "retry-after" then some "30" else none

/-- Responses exercising `_should_retry`. -/
def resp429 : Response := { status := 429, headers := emptySMap, body := "", json := none }

/-- A plain 500 response. -/
def resp500 : Response := { status := 500, headers := emptySMap, body := "", json := none }

/-- A plain 404 response. -/
def resp404 : Response := { status := 404, headers := emptySMap, body := "", json := none }

/-- A plain 408 response. -/
def resp408 : Response := { status := 408, headers := emptySMap, body := "", json := none }

/-- A 500 response carrying `x-should-retry: false`. -/
def resp500False : Response :=
  { status := 500
    headers := fun k => if k = "x-should-retry" then some "false" else none
    body := ""
    json := none }

/-- Default mapping marking key "k" as Omit. -/
def exDefaults : Mapp := fun k => if k = "k" then some HVal.omit else none

/-- Custom mapping giving key "k" the real value "v". -/
def exCustom : Mapp := fun k => if k = "k" then some (HVal.val "v") else none

/-- Page options whose query already carries a=1. -/
def exPageOpts : FinalRequestOptions :=
  { exOpts with params := fun k => if k = "a" then some (HVal.val "1") else none }

/-- A next-page URL whose own query carries only b=2. -/
def exNextUrl : Url :=
  { address := "https://api.example.com/v1/items"
    params := fun k => if k = "b" then some (HVal.val "2") else none }

/-- A page holding items [1,2,3], a URL-style PageInfo, and the a=1 options. -/
def exPage8 : Page Nat :=
  { items := [1, 2, 3]
    nextInfo := some { url := some exNextUrl, params := none }
    options := exPageOpts }

/-- Page with items [1,2,3] and a populated PageInfo. -/
def pageA : Page Nat :=
  { items := [1, 2, 3]
    nextInfo := some { url := some exUrl0, params := none }
    options := exOpts }

/-- Page with no items but a populated PageInfo. -/
def pageB : Page Nat :=
  { items := []
    nextInfo := some { url := some exUrl0, params := none }
    options := exOpts }

/-- Page whose `next_page_info()` yields nothing. -/
def pageNoInfo : Page Nat := { items := [1], nextInfo := none, options := exOpts }

/-- The idempotency header value observable on a wire request given the key the
options cache: the multipart Content-Type removal (lines 418-419) can hide the
value only in the degenerate case that the configured idempotency header IS
Content-Type and the key IS "multipart/form-data". -/
def sentVal (ih k : String) : Option String :=
  if ih = "Content-Type" ∧ k = "multipart/form-data" then none else some k

/-! Helper lemmas shared by the claim theorems. -/

/-- With every wire attempt failing with a generic connection error, the sync
executor makes exactly budget+1 attempts: one per unit of budget plus the
original. -/
theorem syncRequest_connError_len (c : Client) (castTo : CastTo) (fresh : Nat → String)
    (stream : Bool) (streamCls : Option Unit) :
    ∀ retries attempt opts,
      (syncRequest c castTo (fun _ => SendOutcome.connectionError) fresh stream streamCls
        attempt opts retries).2.length = retries + 1 := by
  intro retries
  induction retries with
  | zero => intro attempt opts; simp [syncRequest]
  | succ r ihr => intro attempt opts; simp [syncRequest, ihr]

/-- The async analogue of `syncRequest_connError_len`. -/
theorem asyncRequest_connError_len (c : Client) (castTo : CastTo) (fresh : Nat → String)
    (stream : Bool) (streamCls : Option Unit) :
    ∀ retries attempt opts,
      (asyncRequest c castTo (fun _ => SendOutcome.connectionError) fresh stream streamCls
        attempt opts retries).2.length = retries + 1 := by
  intro retries
  induction retries with
  | zero => intro attempt opts; simp [asyncRequest]
  | succ r ihr => intro attempt opts; simp [asyncRequest, ihr]

/-- With every wire attempt timing out on read, the sync executor retries through
its whole budget and surfaces `APITimeoutError`. -/
theorem syncRequest_readTimeout_run (c : Client) (castTo : CastTo) (fresh : Nat → String)
    (stream : Bool) (streamCls : Option Unit) :
    ∀ retries attempt opts,
      (syncRequest c castTo (fun _ => SendOutcome.readTimeout) fresh stream streamCls
          attempt opts retries).1 = Except.error ReqError.apiTimeoutError ∧
      (syncRequest c castTo (fun _ => SendOutcome.readTimeout) fresh stream streamCls
          attempt opts retries).2.length = retries + 1 := by
  intro retries
  induction retries with
  | zero => intro attempt opts; simp [syncRequest]
  | succ r ihr =>
    intro attempt opts
    constructor
    · simp [syncRequest, (ihr (attempt + 1) (buildRequest c opts (fresh attempt)).2).1]
    · simp [syncRequest, (ihr (attempt + 1) (buildRequest c opts (fresh attempt)).2).2]

/-- The generated idempotency key is never the empty string. -/
theorem keyUsed_ne_empty (c : Client) (opts : FinalRequestOptions) (fresh : String) :
    keyUsed c opts fresh ≠ "" := by
  have hgen : c.idempotencyKeyGen fresh ≠ "" := by
    intro h
    have h2 := congrArg String.length h
    rw [Client.idempotencyKeyGen, String.length_append] at h2
    have h3 : ("stainless-python-retry-" : String).length = 23 := rfl
    have h4 : ("" : String).length = 0 := rfl
    omega
  unfold keyUsed
  cases h : opts.idempotencyKey with
  | none => exact hgen
  | some k =>
    show (if k = "" then c.idempotencyKeyGen fresh else k) ≠ ""
    by_cases hk : k = ""
    · rw [if_pos hk]
      exact hgen
    · rw [if_neg hk]
      exact hk

/-- A cached truthy key is reused verbatim. -/
theorem keyUsed_cached (c : Client) (opts : FinalRequestOptions) (fresh : String) (k : String)
    (h : opts.idempotencyKey = some k) (hk : k ≠ "") : keyUsed c opts fresh = k := by
  simp [keyUsed, h, hk]

/-- When the idempotency branch of `_build_headers` fires, the header map gains the
key at the configured name and the options cache the key. -/
theorem buildHeaders_idem (c : Client) (opts : FinalRequestOptions) (fresh : String)
    (ih : String) (hih : c.idempotencyHeader = some ih) (hne : ih ≠ "")
    (hget : pyLower opts.method ≠ "get")
    (habs : toHeaders (mergeMappings c.defaultHeadersM opts.headers) ih = none) :
    buildHeaders c opts fresh =
      (fun k =>
        if k = ih then some (keyUsed c opts fresh)
        else toHeaders (mergeMappings c.defaultHeadersM opts.headers) k,
       { opts with idempotencyKey := some (keyUsed c opts fresh) }) := by
  simp [buildHeaders, hih, hne, hget, habs]

/-- The wire request built when the idempotency branch fires carries `sentVal` at
the configured header name, and the options cache the key. -/
theorem buildRequest_idem (c : Client) (opts : FinalRequestOptions) (fresh : String)
    (ih : String) (hih : c.idempotencyHeader = some ih) (hne : ih ≠ "")
    (hget : pyLower opts.method ≠ "get")
    (habs : toHeaders (mergeMappings c.defaultHeadersM opts.headers) ih = none) :
    (buildRequest c opts fresh).1.headers ih = sentVal ih (keyUsed c opts fresh) ∧
    (buildRequest c opts fresh).2 = { opts with idempotencyKey := some (keyUsed c opts fresh) } := by
  have hb := buildHeaders_idem c opts fresh ih hih hne hget habs
  constructor
  · by_cases hCT : ih = "Content-Type"
    · subst hCT
      by_cases hk : keyUsed c opts fresh = "multipart/form-data"
      · simp [buildRequest, hb, hk, sentVal]
      · simp [buildRequest, hb, hk, sentVal]
    · have hCT' : ¬ ("Content-Type" = ih) := fun h => hCT h.symm
      by_cases hpop :
          toHeaders (mergeMappings c.defaultHeadersM opts.headers) "Content-Type"
            = some "multipart/form-data"
      · simp [buildRequest, hb, hCT, hCT', hpop, sentVal]
      · simp [buildRequest, hb, hCT, hCT', hpop, sentVal]
  · simp [buildRequest, hb]

/-- Invariant of the sync retry loop: when the idempotency branch fires, every
wire request of the run carries the key settled at the first build (later
attempts reuse the cached key, so `keyUsed` is constant along the run). -/
theorem syncRequest_idem_vals (c : Client) (castTo : CastTo) (transport : Nat → SendOutcome)
    (fresh : Nat → String) (stream : Bool) (streamCls : Option Unit) (ih : String)
    (hih : c.idempotencyHeader = some ih) (hne : ih ≠ "") :
    ∀ retries attempt opts, pyLower opts.method ≠ "get" →
      toHeaders (mergeMappings c.defaultHeadersM opts.headers) ih = none →
      ∀ req ∈ (syncRequest c castTo transport fresh stream streamCls attempt opts retries).2,
        req.headers ih = sentVal ih (keyUsed c opts (fresh attempt)) := by
  intro retries
  induction retries with
  | zero =>
    intro attempt opts hget habs req hreq
    have hd := buildRequest_idem c opts (fresh attempt) ih hih hne hget habs
    have hr : req = (buildRequest c opts (fresh attempt)).1 := by
      rcases htr : transport attempt with resp | _ | _ | _ | _ <;>
        simpa [syncRequest, htr] using hreq
    rw [hr, hd.1]
  | succ r ihr =>
    intro attempt opts hget habs req hreq
    have hd := buildRequest_idem c opts (fresh attempt) ih hih hne hget habs
    have hkey : keyUsed c ((buildRequest c opts (fresh attempt)).2) (fresh (attempt + 1))
        = keyUsed c opts (fresh attempt) := by
      apply keyUsed_cached _ _ _ _ _ (keyUsed_ne_empty c opts (fresh attempt))
      rw [hd.2]
    have hget2 : pyLower ((buildRequest c opts (fresh attempt)).2).method ≠ "get" := by
      rw [hd.2]
      exact hget
    have habs2 : toHeaders
        (mergeMappings c.defaultHeadersM ((buildRequest c opts (fresh attempt)).2).headers)
        ih = none := by
      rw [hd.2]
      exact habs
    have tail := ihr (attempt + 1) ((buildRequest c opts (fresh attempt)).2) hget2 habs2
    rcases htr : transport attempt with resp | _ | _ | _ | _
    · by_cases hcond : 400 ≤ resp.status ∧ shouldRetry resp
      · simp only [syncRequest, htr, if_pos hcond, List.mem_cons] at hreq
        rcases hreq with hreq | hreq
        · rw [hreq, hd.1]
        · rw [tail req hreq, hkey]
      · simp only [syncRequest, htr, if_neg hcond, List.mem_singleton] at hreq
        rw [hreq, hd.1]
    · simp only [syncRequest, htr, List.mem_cons] at hreq
      rcases hreq with hreq | hreq
      · rw [hreq, hd.1]
      · rw [tail req hreq, hkey]
    · simp only [syncRequest, htr, List.mem_cons] at hreq
      rcases hreq with hreq | hreq
      · rw [hreq, hd.1]
      · rw [tail req hreq, hkey]
    · simp only [syncRequest, htr, List.mem_cons] at hreq
      rcases hreq with hreq | hreq
      · rw [hreq, hd.1]
      · rw [tail req hreq, hkey]
    · simp only [syncRequest, htr, List.mem_cons] at hreq
      rcases hreq with hreq | hreq
      · rw [hreq, hd.1]
      · rw [tail req hreq, hkey]

/-- The async analogue of `syncRequest_idem_vals` (the read-timeout arm simply
does not recurse). -/
theorem asyncRequest_idem_vals (c : Client) (castTo : CastTo) (transport : Nat → SendOutcome)
    (fresh : Nat → String) (stream : Bool) (streamCls : Option Unit) (ih : String)
    (hih : c.idempotencyHeader = some ih) (hne : ih ≠ "") :
    ∀ retries attempt opts, pyLower opts.method ≠ "get" →
      toHeaders (mergeMappings c.defaultHeadersM opts.headers) ih = none →
      ∀ req ∈ (asyncRequest c castTo transport fresh stream streamCls attempt opts retries).2,
        req.headers ih = sentVal ih (keyUsed c opts (fresh attempt)) := by
  intro retries
  induction retries with
  | zero =>
    intro attempt opts hget habs req hreq
    have hd := buildRequest_idem c opts (fresh attempt) ih hih hne hget habs
    have hr : req = (buildRequest c opts (fresh attempt)).1 := by
      rcases htr : transport attempt with resp | _ | _ | _ | _ <;>
        simpa [asyncRequest, htr] using hreq
    rw [hr, hd.1]
  | succ r ihr =>
    intro attempt opts hget habs req hreq
    have hd := buildRequest_idem c opts (fresh attempt) ih hih hne hget habs
    have hkey : keyUsed c ((buildRequest c opts (fresh attempt)).2) (fresh (attempt + 1))
        = keyUsed c opts (fresh attempt) := by
      apply keyUsed_cached _ _ _ _ _ (keyUsed_ne_empty c opts (fresh attempt))
      rw [hd.2]
    have hget2 : pyLower ((buildRequest c opts (fresh attempt)).2).method ≠ "get" := by
      rw [hd.2]
      exact hget
    have habs2 : toHeaders
        (mergeMappings c.defaultHeadersM ((buildRequest c opts (fresh attempt)).2).headers)
        ih = none := by
      rw [hd.2]
      exact habs
    have tail := ihr (attempt + 1) ((buildRequest c opts (fresh attempt)).2) hget2 habs2
    rcases htr : transport attempt with resp | _ | _ | _ | _
    · by_cases hcond : 400 ≤ resp.status ∧ shouldRetry resp
      · simp only [asyncRequest, htr, if_pos hcond, List.mem_cons] at hreq
        rcases hreq with hreq | hreq
        · rw [hreq, hd.1]
        · rw [tail req hreq, hkey]
      · simp only [asyncRequest, htr, if_neg hcond, List.mem_singleton] at hreq
        rw [hreq, hd.1]
    · simp only [asyncRequest, htr, List.mem_cons] at hreq
      rcases hreq with hreq | hreq
      · rw [hreq, hd.1]
      · rw [tail req hreq, hkey]
    · simp only [asyncRequest, htr, List.mem_singleton] at hreq
      rw [hreq, hd.1]
    · simp only [asyncRequest, htr, List.mem_cons] at hreq
      rcases hreq with hreq | hreq
      · rw [hreq, hd.1]
      · rw [tail req hreq, hkey]
    · simp only [asyncRequest, htr, List.mem_cons] at hreq
      rcases hreq with hreq | hreq
      · rw [hreq, hd.1]
      · rw [tail req hreq, hkey]

/-! Claim theorems. -/

/-- C1 counterexample: in the blocking executor a read timeout on the first wire
attempt with remaining budget 2 is retried, not surfaced: the call returns the
decoded success of the second attempt, and two wire attempts were made. This
refutes the claim that in either executor variant a read timeout is never retried
and surfaces immediately as a fatal timeout error. -/
theorem c1_counterexample :
    readTimeoutThenOk 0 = SendOutcome.readTimeout ∧
    (syncRequestTop exClient CastTo.unknownResponse exOpts (some 2) readTimeoutThenOk
        freshKeys false none).1 = Except.ok (Decoded.rawData (Json.obj [])) ∧
    (syncRequestTop exClient CastTo.unknownResponse exOpts (some 2) readTimeoutThenOk
        freshKeys false none).2.length = 2 :=
  ⟨rfl, rfl, rfl⟩

/-- C1 amended: only the concurrent executor treats a read timeout after headers
as fatal — it re-raises the ReadTimeout after exactly one wire attempt regardless
of remaining budget — while the blocking executor's generic timeout handler
retries a read timeout once per unit of budget and surfaces APITimeoutError only
on exhaustion. -/
theorem c1_read_timeout_amended (c : Client) (castTo : CastTo) (opts : FinalRequestOptions)
    (fresh : Nat → String) (r : Nat) :
    (asyncRequestTop c castTo opts (some r) (fun _ => SendOutcome.readTimeout)
        fresh false none).1 = Except.error ReqError.readTimeoutReRaised ∧
    (asyncRequestTop c castTo opts (some r) (fun _ => SendOutcome.readTimeout)
        fresh false none).2.length = 1 ∧
    (syncRequestTop c castTo opts (some r) (fun _ => SendOutcome.readTimeout)
        fresh false none).1 = Except.error ReqError.apiTimeoutError ∧
    (syncRequestTop c castTo opts (some r) (fun _ => SendOutcome.readTimeout)
        fresh false none).2.length = r + 1 := by
  refine ⟨?_, ?_, ?_, ?_⟩
  · cases r with
    | zero => simp [asyncRequestTop, remainingRetriesFn, asyncRequest]
    | succ n => simp [asyncRequestTop, remainingRetriesFn, asyncRequest]
  · cases r with
    | zero => simp [asyncRequestTop, remainingRetriesFn, asyncRequest]
    | succ n => simp [asyncRequestTop, remainingRetriesFn, asyncRequest]
  · exact (syncRequest_readTimeout_run c castTo fresh false none r 0 opts).1
  · exact (syncRequest_readTimeout_run c castTo fresh false none r 0 opts).2

/-- C2: the retry budget starts at min(per-call override, client default) — with
`get_max_retries` modelled from the spec, see its doc comment — and is decremented
by one on each retry: with every attempt failing retryably, both executors make
exactly budget+1 wire attempts. -/
theorem c2_retry_budget_spec (c : Client) (opts : FinalRequestOptions) (castTo : CastTo)
    (fresh : Nat → String) (m : Nat) (h : opts.maxRetries = some m) :
    remainingRetriesFn c none opts = min m c.maxRetries ∧
    (syncRequestTop c castTo opts none (fun _ => SendOutcome.connectionError)
        fresh false none).2.length = min m c.maxRetries + 1 ∧
    (asyncRequestTop c castTo opts none (fun _ => SendOutcome.connectionError)
        fresh false none).2.length = min m c.maxRetries + 1 := by
  have h1 : remainingRetriesFn c none opts = min m c.maxRetries := by
    simp [remainingRetriesFn, FinalRequestOptions.getMaxRetries, h]
  refine ⟨h1, ?_, ?_⟩
  · rw [syncRequestTop,
      syncRequest_connError_len c castTo fresh false none (remainingRetriesFn c none opts) 0 opts,
      h1]
  · rw [asyncRequestTop,
      asyncRequest_connError_len c castTo fresh false none (remainingRetriesFn c none opts) 0 opts,
      h1]

/-- Witness for C2 at override 5 and client default 2: budget min 5 2 = 2, three
wire attempts in each executor. -/
theorem c2_retry_budget_spec_witness :
    remainingRetriesFn exClient none exOptsM5 = 2 ∧
    (syncRequestTop exClient CastTo.unknownResponse exOptsM5 none
        (fun _ => SendOutcome.connectionError) freshKeys false none).2.length = 3 ∧
    (asyncRequestTop exClient CastTo.unknownResponse exOptsM5 none
        (fun _ => SendOutcome.connectionError) freshKeys false none).2.length = 3 :=
  c2_retry_budget_spec exClient exOptsM5 CastTo.unknownResponse freshKeys 5 rfl

/-- C3 counterexample: at attempt 3 (maxRetries 3, remaining 0) with the jitter
draw rand = 9/10, the computed delay is 2.4 — the final delay exceeds 2.0, so it
is not clamped to 2.0 as the claim states. -/
theorem c3_counterexample :
    exOptsM3.getMaxRetries exClient3.maxRetries - 0 = 3 ∧
    calculateRetryTimeout exClient3 0 exOptsM3 none (9 / 10) = 12 / 5 ∧
    ¬ calculateRetryTimeout exClient3 0 exOptsM3 none (9 / 10) ≤ 2 := by
  have h2 : calculateRetryTimeout exClient3 0 exOptsM3 none (9 / 10) = 12 / 5 := by
    norm_num [calculateRetryTimeout, retryAfterOf, FinalRequestOptions.getMaxRetries,
      exOptsM3, exClient3, exClient, exOpts]
  refine ⟨rfl, h2, ?_⟩
  rw [h2]
  norm_num

/-- C3 amended: a retry-after header parsing to an integer in (0, 60] is used
verbatim regardless of attempt; otherwise the delay is
`max 0 (min (0.5*(attempt-1)^2) 2 + (rand - 0.5))` with
`attempt = maxRetries - remainingRetries` — the exponential base is clamped to 2.0
BEFORE the jitter is added, so the final delay is only bounded by 2.5 (strictly),
not clamped to 2.0. -/
theorem c3_compute_delay_amended (c : Client) (opts : FinalRequestOptions) (remaining : Nat)
    (hdrs : Option SMap) (rand : ℚ) (_h0 : 0 ≤ rand) (h1 : rand < 1) :
    (0 < retryAfterOf hdrs ∧ retryAfterOf hdrs ≤ 60 →
      calculateRetryTimeout c remaining opts hdrs rand = (retryAfterOf hdrs : ℚ)) ∧
    (¬ (0 < retryAfterOf hdrs ∧ retryAfterOf hdrs ≤ 60) →
      calculateRetryTimeout c remaining opts hdrs rand =
        max 0 (min ((1 / 2) *
            ((((opts.getMaxRetries c.maxRetries : Int) - (remaining : Int) - 1) ^ 2 : Int) : ℚ)) 2
          + (rand - 1 / 2)) ∧
      calculateRetryTimeout c remaining opts hdrs rand < 5 / 2) := by
  constructor
  · intro h
    simp [calculateRetryTimeout, h]
  · intro h
    have key : calculateRetryTimeout c remaining opts hdrs rand =
        max 0 (min ((1 / 2) *
            ((((opts.getMaxRetries c.maxRetries : Int) - (remaining : Int) - 1) ^ 2 : Int) : ℚ)) 2
          + (rand - 1 / 2)) := by
      simp only [calculateRetryTimeout, if_neg h]
      split
      · exact (max_eq_right (by assumption)).symm
      · exact (max_eq_left (le_of_not_le (by assumption))).symm
    refine ⟨key, ?_⟩
    rw [key]
    apply max_lt (by norm_num)
    have hS : min ((1 / 2) *
        ((((opts.getMaxRetries c.maxRetries : Int) - (remaining : Int) - 1) ^ 2 : Int) : ℚ)) 2 ≤ 2 :=
      min_le_right _ _
    linarith

/-- Witness for C3 amended: with `retry-after: 30` the delay is exactly 30. -/
theorem c3_compute_delay_amended_witness :
    calculateRetryTimeout exClient3 1 exOptsM3 (some hdrRetryAfter30) (1 / 3) = 30 := by
  have hra : retryAfterOf (some hdrRetryAfter30) = 30 := rfl
  have h := (c3_compute_delay_amended exClient3 exOptsM3 1 (some hdrRetryAfter30) (1 / 3)
    (by norm_num) (by norm_num)).1 (by rw [hra]; norm_num)
  rw [hra] at h
  simpa using h

/-- C4: `_should_retry` obeys an explicit `x-should-retry` response header valued
"true"/"false", overriding all heuristics; absent such a header it retries exactly
on status 409, 429, or ≥ 500. -/
theorem c4_should_retry_spec (resp : Response) :
    (resp.headers "x-should-retry" = some "true" → shouldRetry resp = true) ∧
    (resp.headers "x-should-retry" = some "false" → shouldRetry resp = false) ∧
    (resp.headers "x-should-retry" ≠ some "true" →
      resp.headers "x-should-retry" ≠ some "false" →
      (shouldRetry resp = true ↔
        (resp.status = 409 ∨ resp.status = 429 ∨ 500 ≤ resp.status))) := by
  refine ⟨fun h => by simp [shouldRetry, h], fun h => by simp [shouldRetry, h], fun h1 h2 => ?_⟩
  simp only [shouldRetry, if_neg h1, if_neg h2]
  by_cases h409 : resp.status = 409 <;> by_cases h429 : resp.status = 429 <;>
    by_cases h500 : 500 ≤ resp.status <;> simp [h409, h429, h500]

/-- Witness for C4 at the spec's concrete instances: 429 and 500 retried, 404 and
408 not retried, and `x-should-retry: false` obeyed on a 500. -/
theorem c4_should_retry_spec_witness :
    shouldRetry resp429 = true ∧ shouldRetry resp500 = true ∧ shouldRetry resp404 = false ∧
    shouldRetry resp408 = false ∧ shouldRetry resp500False = false := by
  refine ⟨?_, ?_, ?_, ?_, ?_⟩
  · exact ((c4_should_retry_spec resp429).2.2 (by decide) (by decide)).mpr (Or.inr (Or.inl rfl))
  · exact ((c4_should_retry_spec resp500).2.2 (by decide) (by decide)).mpr
      (Or.inr (Or.inr (by decide)))
  · have h := (c4_should_retry_spec resp404).2.2 (by decide) (by decide)
    have hn : ¬ (resp404.status = 409 ∨ resp404.status = 429 ∨ 500 ≤ resp404.status) := by decide
    exact Bool.eq_false_iff.mpr fun hc => hn (h.mp hc)
  · have h := (c4_should_retry_spec resp408).2.2 (by decide) (by decide)
    have hn : ¬ (resp408.status = 409 ∨ resp408.status = 429 ∨ 500 ≤ resp408.status) := by decide
    exact Bool.eq_false_iff.mpr fun hc => hn (h.mp hc)
  · exact (c4_should_retry_spec resp500False).2.1 rfl

/-- C5: for a non-GET request with a configured (truthy) idempotency header absent
from the merged headers, one key is settled at the first header build, cached on
the options, and the idempotency header value sent is identical across all wire
attempts of the run — budget r yields up to r+1 attempts — in both executors.
(`sentVal` is `some key` except in the degenerate multipart/Content-Type case,
see its doc comment.) -/
theorem c5_idempotency_key_spec (c : Client) (castTo : CastTo) (opts : FinalRequestOptions)
    (transport : Nat → SendOutcome) (fresh : Nat → String) (r : Nat) (ih : String)
    (hih : c.idempotencyHeader = some ih) (hne : ih ≠ "")
    (hget : pyLower opts.method ≠ "get")
    (habs : toHeaders (mergeMappings c.defaultHeadersM opts.headers) ih = none) :
    ∃ k, k ≠ "" ∧ (buildRequest c opts (fresh 0)).2.idempotencyKey = some k ∧
      (∀ req ∈ (syncRequestTop c castTo opts (some r) transport fresh false none).2,
        req.headers ih = sentVal ih k) ∧
      (∀ req ∈ (asyncRequestTop c castTo opts (some r) transport fresh false none).2,
        req.headers ih = sentVal ih k) := by
  refine ⟨keyUsed c opts (fresh 0), keyUsed_ne_empty c opts (fresh 0), ?_, ?_, ?_⟩
  · rw [(buildRequest_idem c opts (fresh 0) ih hih hne hget habs).2]
  · intro req hreq
    exact syncRequest_idem_vals c castTo transport fresh false none ih hih hne
      (remainingRetriesFn c (some r) opts) 0 opts hget habs req hreq
  · intro req hreq
    exact asyncRequest_idem_vals c castTo transport fresh false none ih hih hne
      (remainingRetriesFn c (some r) opts) 0 opts hget habs req hreq

/-- Witness for C5: a POST with budget 1 against an always-failing transport makes
two wire attempts, both carrying the same generated idempotency key. -/
theorem c5_idempotency_key_spec_witness :
    ((syncRequestTop exClientIdem CastTo.unknownResponse exOptsPost (some 1)
        (fun _ => SendOutcome.connectionError) freshKeys false none).2.map
      (fun req => req.headers "Idempotency-Key"))
      = [some "stainless-python-retry-0", some "stainless-python-retry-0"] := by
  obtain ⟨k, hk, hcache, hsync, hasync⟩ :=
    c5_idempotency_key_spec exClientIdem CastTo.unknownResponse exOptsPost
      (fun _ => SendOutcome.connectionError) freshKeys 1 "Idempotency-Key"
      rfl (by decide) (by decide) rfl
  exact rfl

/-- C6 counterexample: a key marked Omit in the defaults but overridden with a
real value in the custom mapping DOES appear in the merged mapping, refuting "a
key whose value is marked omit in either input mapping never appears". -/
theorem c6_counterexample :
    exDefaults "k" = some HVal.omit ∧
    mergeMappings exDefaults exCustom "k" = some (HVal.val "v") ∧
    mergeMappings exDefaults exCustom "k" ≠ none :=
  ⟨rfl, rfl, by decide⟩

/-- C6 amended: the merge is later-wins with the Omit filter applied AFTER the
merge — a key present in both resolves to the custom value when that value is not
Omit; a key whose custom value is Omit never appears; a key marked Omit in the
defaults is dropped only when the custom mapping does not supply it. -/
theorem c6_merge_mappings_amended (obj1 obj2 : Mapp) (k : String) :
    (∀ v, obj2 k = some v → v ≠ HVal.omit → mergeMappings obj1 obj2 k = some v) ∧
    (obj2 k = some HVal.omit → mergeMappings obj1 obj2 k = none) ∧
    (obj2 k = none → obj1 k = some HVal.omit → mergeMappings obj1 obj2 k = none) ∧
    (obj2 k = none → ∀ v, obj1 k = some v → v ≠ HVal.omit →
      mergeMappings obj1 obj2 k = some v) ∧
    (obj2 k = none → obj1 k = none → mergeMappings obj1 obj2 k = none) := by
  refine ⟨?_, ?_, ?_, ?_, ?_⟩
  · intro v h hv
    rcases v with _ | s
    · exact absurd rfl hv
    · simp [mergeMappings, dictMerge, h]
  · intro h
    simp [mergeMappings, dictMerge, h]
  · intro h2 h1
    simp [mergeMappings, dictMerge, h1, h2]
  · intro h2 v h1 hv
    rcases v with _ | s
    · exact absurd rfl hv
    · simp [mergeMappings, dictMerge, h1, h2]
  · intro h2 h1
    simp [mergeMappings, dictMerge, h1, h2]

/-- Witness for C6 amended: the custom value wins on collision, and a mapping
whose later value is Omit drops the key. -/
theorem c6_merge_mappings_amended_witness :
    mergeMappings exDefaults exCustom "k" = some (HVal.val "v") ∧
    mergeMappings exCustom exDefaults "k" = none := by
  constructor
  · exact (c6_merge_mappings_amended exDefaults exCustom "k").1 (HVal.val "v") rfl (by decide)
  · exact (c6_merge_mappings_amended exCustom exDefaults "k").2.1 rfl

/-- C7: `has_next_page` is false on an empty item list regardless of what
`next_page_info()` would yield, and on a non-empty list it is true iff
`next_page_info()` returned a PageInfo. -/
theorem c7_has_next_page_spec {α : Type} (p : Page α) :
    (p.items = [] → hasNextPage p = false) ∧
    (p.items ≠ [] → (hasNextPage p = true ↔ p.nextInfo.isSome = true)) := by
  constructor
  · intro h
    simp [hasNextPage, h]
  · intro h
    cases hi : p.items with
    | nil => exact absurd hi h
    | cons a l => simp [hasNextPage, hi]

/-- Witness for C7 at the spec's examples: page A with items [1,2,3] and a
URL-style PageInfo has a next page; page B with no items does not, despite its
populated PageInfo. -/
theorem c7_has_next_page_spec_witness :
    hasNextPage pageA = true ∧ hasNextPage pageB = false := by
  constructor
  · exact ((c7_has_next_page_spec pageA).2 (by decide)).mpr rfl
  · exact (c7_has_next_page_spec pageB).1 rfl

/-- C8 counterexample: advancing through an absolute-URL PageInfo does NOT replace
the current query wholesale — the current option a=1, absent from the URL's own
query, survives into the successor options. -/
theorem c8_counterexample :
    exNextUrl.params "a" = none ∧
    (infoToOptions exPage8 { url := some exNextUrl, params := none }).map
      (fun o => o.params "a") = Except.ok (some (HVal.val "1")) :=
  ⟨rfl, rfl⟩

/-- C8 amended: a params-carrying PageInfo merges its params over the current
query (that branch takes precedence when both are populated); a url-carrying
PageInfo sets the successor's query to the CURRENT query merged with the URL's
own parameters (URL side winning per key) and the successor URL to that URL
carrying the merged query; neither populated raises ValueError. -/
theorem c8_info_to_options_amended {α : Type} (p : Page α) (info : PageInfo) :
    (∀ ps, info.params = some ps →
      infoToOptions p info =
        Except.ok { p.options with params := dictMerge p.options.params ps }) ∧
    (info.params = none → ∀ u, info.url = some u →
      infoToOptions p info = Except.ok { p.options with
        params := dictMerge p.options.params u.params,
        url := { address := u.address, params := dictMerge p.options.params u.params } }) ∧
    (info.params = none → info.url = none →
      infoToOptions p info = Except.error "Unexpected PageInfo state") := by
  refine ⟨?_, ?_, ?_⟩
  · intro ps h
    simp [infoToOptions, h]
  · intro hp u hu
    simp [infoToOptions, paramsFromUrl, hp, hu]
  · intro hp hu
    simp [infoToOptions, hp, hu]

/-- Witness for C8 amended at the concrete page: the successor keeps a=1 merged
with the URL's b=2. -/
theorem c8_info_to_options_amended_witness :
    infoToOptions exPage8 { url := some exNextUrl, params := none } =
      Except.ok { exPage8.options with
        params := dictMerge exPage8.options.params exNextUrl.params,
        url := { address := exNextUrl.address,
                 params := dictMerge exPage8.options.params exNextUrl.params } } :=
  (c8_info_to_options_amended exPage8 { url := some exNextUrl, params := none }).2.1
    rfl exNextUrl rfl

/-- C10: on both the sync and async page types, `get_next_page` with no
`next_page_info()` raises RuntimeError with the check-has_next_page advice and
issues no request; a follow-up request is issued only when `next_page_info()`
returned a PageInfo. -/
theorem c10_get_next_page_spec {α : Type} (p : Page α) :
    (p.nextInfo = none →
      getNextPage p = NextPageResult.runtimeError
        "No next page expected; please check `.has_next_page()` before calling `.get_next_page()`." ∧
      asyncGetNextPage p = NextPageResult.runtimeError
        "No next page expected; please check `.has_next_page()` before calling `.get_next_page()`.") ∧
    (∀ opts, getNextPage p = NextPageResult.requestIssued opts → p.nextInfo.isSome = true) ∧
    (∀ opts, asyncGetNextPage p = NextPageResult.requestIssued opts →
      p.nextInfo.isSome = true) := by
  refine ⟨fun h => ⟨by simp [getNextPage, h], by simp [asyncGetNextPage, h]⟩, ?_, ?_⟩
  · intro opts h
    cases hi : p.nextInfo with
    | none => simp [getNextPage, hi] at h
    | some i => simp [hi]
  · intro opts h
    cases hi : p.nextInfo with
    | none => simp [asyncGetNextPage, hi] at h
    | some i => simp [hi]

/-- C9 counterexample: a non-JSON Content-Type on a JSON-expecting request
surfaces as a plain, unwrapped ValueError — NOT as an
APIResponseValidationError-class failure — after a single wire attempt despite a
remaining budget of 2. -/
theorem c9_counterexample :
    (syncRequestTop exClient CastTo.model exOpts (some 2) alwaysTextPlain
        freshKeys false none).1
      = Except.error (ReqError.uncaught (ProcError.valueErrorContentType "text/plain")) ∧
    (syncRequestTop exClient CastTo.model exOpts (some 2) alwaysTextPlain
        freshKeys false none).1 ≠ Except.error ReqError.apiResponseValidationError ∧
    (syncRequestTop exClient CastTo.model exOpts (some 2) alwaysTextPlain
        freshKeys false none).2.length = 1 := by
  refine ⟨rfl, ?_, rfl⟩
  intro hcontra
  have h1 : (syncRequestTop exClient CastTo.model exOpts (some 2) alwaysTextPlain
      freshKeys false none).1
      = Except.error (ReqError.uncaught (ProcError.valueErrorContentType "text/plain")) := rfl
  rw [h1] at hcontra
  simp at hcontra

/-- C9 amended: for every JSON-expecting cast target, a response Content-Type
whose main part (before any ";charset=..." suffix) is not exactly
application/json causes a fatal ValueError — surfaced unwrapped, not as an
APIResponseValidationError — and the request is never retried: both executors
stop after the single wire attempt. -/
theorem c9_content_type_amended (c : Client) (castTo : CastTo) (opts : FinalRequestOptions)
    (transport : Nat → SendOutcome) (fresh : Nat → String) (r : Nat) (resp : Response)
    (ctRaw : String)
    (hc : castTo = CastTo.unknownResponse ∨ castTo = CastTo.modelBuilder ∨
      castTo = CastTo.model)
    (ht : transport 0 = SendOutcome.response resp)
    (hs : resp.status < 400)
    (hh : resp.headers "content-type" = some ctRaw)
    (hct : contentTypeMain ctRaw ≠ "application/json") :
    ((syncRequestTop c castTo opts (some r) transport fresh false none).1
        = Except.error (ReqError.uncaught (ProcError.valueErrorContentType (contentTypeMain ctRaw))) ∧
      (syncRequestTop c castTo opts (some r) transport fresh false none).2.length = 1) ∧
    ((asyncRequestTop c castTo opts (some r) transport fresh false none).1
        = Except.error (ReqError.uncaught (ProcError.valueErrorContentType (contentTypeMain ctRaw))) ∧
      (asyncRequestTop c castTo opts (some r) transport fresh false none).2.length = 1) := by
  have hwrap : wrapProcess c castTo resp
      = Except.error (ReqError.uncaught (ProcError.valueErrorContentType (contentTypeMain ctRaw))) := by
    rcases hc with h | h | h <;> subst h <;> simp [wrapProcess, processResponse, hh, hct]
  have hns : ¬ 400 ≤ resp.status := by omega
  cases r with
  | zero =>
    refine ⟨⟨?_, ?_⟩, ?_, ?_⟩ <;>
      simp [syncRequestTop, asyncRequestTop, remainingRetriesFn, syncRequest, asyncRequest,
        respondResult, ht, hns, hwrap]
  | succ n =>
    refine ⟨⟨?_, ?_⟩, ?_, ?_⟩ <;>
      simp [syncRequestTop, asyncRequestTop, remainingRetriesFn, syncRequest, asyncRequest,
        respondResult, ht, hns, hwrap]

/-- Witness for C9 amended at the concrete text/plain response. -/
theorem c9_content_type_amended_witness :
    (syncRequestTop exClient CastTo.unknownResponse exOpts (some 1) alwaysTextPlain
        freshKeys false none).1
      = Except.error (ReqError.uncaught (ProcError.valueErrorContentType "text/plain")) ∧
    (syncRequestTop exClient CastTo.unknownResponse exOpts (some 1) alwaysTextPlain
        freshKeys false none).2.length = 1 := by
  have h := c9_content_type_amended exClient CastTo.unknownResponse exOpts alwaysTextPlain
    freshKeys 1 textPlainResponse "text/plain" (Or.inl rfl) rfl (by decide) rfl (by decide)
  exact h.1

/-- Witness for C10 at a page whose `next_page_info()` yields nothing. -/
theorem c10_get_next_page_spec_witness :
    getNextPage pageNoInfo = NextPageResult.runtimeError
      "No next page expected; please check `.has_next_page()` before calling `.get_next_page()`." :=
  ((c10_get_next_page_spec pageNoInfo).1 rfl).1

end BaseClientModel
